import Mathlib

/-!
A shallow embedding of the metric mapping and scrape engine of a pgbouncer
metrics exporter, together with theorems checking the natural-language
specification of that engine against the code.

The embedding follows the Go source closely:

* `dbToFloat64` embeds the cell-coercion function of the same name; Go's
  `float64` values are modelled as rationals plus a distinguished `nan`
  element (`FloatVal`), and the standard library's `strconv.ParseFloat`
  (external code, not part of this repository) is abstracted as a parameter
  `parse : String → Option ℚ` returning `some` exactly on parse success.
* `metricRowConverter` and `metricKVConverter` embed the two row-shape
  converters; emission on the Go channel `ch` is modelled by returning the
  list of emitted metrics.
* `convert` / `makeMetricMaps` embed the metric-map builder, with the Go
  maps `metricRowMaps` / `metricKVMaps` transcribed as association lists
  (Go map iteration order is not fixed; the association lists use source
  text order, which fixes one admissible order).
* `Query`, `scrape` and `Collect` embed the scrape orchestrator; the
  database driver is modelled as an oracle `db : String → DBResponse`, and
  `log.Fatal` (which calls `os.Exit`, skipping deferred functions) is
  modelled by the `terminated` flag of `ScrapeResult`.

Go indexing `xs[i]` panics when out of range; the model uses `List.getD`
with a `.null` default.  Every theorem whose conclusion depends on an
indexed access carries well-formedness hypotheses under which the index is
in range, so the default is never exercised on the claimed domain.
-/

/-- A tabular cell value handed back by the SQL driver: the dynamic types
that `dbToFloat64` and the converters discriminate on (`int64`, `float64`,
`time.Time`, `[]byte`, `string`, `nil`, and anything else). -/
inductive CellValue where
  | int (v : Int)
  | float (v : ℚ)
  | timestamp (unix : Int)
  | bytes (s : String)
  | str (s : String)
  | null
  | other
deriving DecidableEq, Repr

/-- A Go `float64` as observed by this program: a real (modelled rational)
number or the NaN sentinel. -/
inductive FloatVal where
  | num (q : ℚ)
  | nan
deriving DecidableEq, Repr

/-- Multiplication by the compiled multiplier (`value*metricMapping.multiplier`
in the source); NaN absorbs. -/
def FloatVal.scale : FloatVal → ℚ → FloatVal
  | .num q, m => .num (q * m)
  | .nan, _ => .nan

/-- Embedding of `dbToFloat64`: convert database/sql cell values to float64
for consumption, returning `(value, ok)`.  `parse` abstracts
`strconv.ParseFloat(s, 64)`: `some r` on success, `none` on error. -/
def dbToFloat64 (parse : String → Option ℚ) : CellValue → FloatVal × Bool
  | .int v => (.num v, true)
  | .float v => (.num v, true)
  | .timestamp u => (.num u, true)
  | .bytes s =>
      match parse s with
      | some r => (.num r, true)
      | none => (.nan, false)
  | .str s =>
      match parse s with
      | some r => (.num r, true)
      | none => (.nan, false)
  | .null => (.nan, true)
  | .other => (.nan, false)

/-- `prometheus.ValueType`, restricted to the two values the source uses. -/
inductive ValueType where
  | counterValue
  | gaugeValue
deriving DecidableEq, Repr

/-- `prometheus.Desc` as built by `prometheus.NewDesc(fqName, help, variableLabels, nil)`. -/
structure Desc where
  fqName : String
  help : String
  variableLabels : List String
deriving DecidableEq, Repr

/-- One metric emitted by `prometheus.MustNewConstMetric(desc, vtype, value, labelValues...)`. -/
structure Metric where
  desc : Desc
  vtype : ValueType
  value : FloatVal
  labelValues : List String
deriving DecidableEq, Repr

/-- The errors this engine constructs (in the source these are `errors.New`
over formatted strings; the constructor arguments record exactly the data
interpolated into the message). -/
inductive ScrapeError where
  | parseColumn (nspace column : String) (value : CellValue)
  | kvParse (nspace key : String) (value : CellValue)
  | kvShortRow (nspace : String) (data : List CellValue)
  | kvKeyNotString (nspace : String) (data : List CellValue)
  | queryError (nspace : String)
  | columnsError (nspace : String)
  | scanError (nspace : String)
  | rowsIterationError (nspace : String)
deriving DecidableEq, Repr

/-- `columnUsage` from the source. -/
inductive columnUsage where
  | LABEL
  | COUNTER
  | GAUGE
  | GAUGE_MS
deriving DecidableEq, Repr

/-- `ColumnMapping` from the source. -/
structure ColumnMapping where
  usage : columnUsage
  promMetricName : String
  description : String
deriving DecidableEq, Repr

/-- `MetricMap` from the source: where a given column gets mapped to. -/
structure MetricMap where
  vtype : ValueType
  desc : Desc
  multiplier : ℚ
deriving DecidableEq, Repr

/-- The two converters the source ever stores in the `rowFunc` field. -/
inductive RowConverterKind where
  | rowConv
  | kvConv
deriving DecidableEq, Repr

/-- `MetricMapFromNamespace` from the source (`namespace` is a Lean keyword,
so the field is called `nspace`). -/
structure MetricMapFromNamespace where
  nspace : String
  columnMappings : List (String × MetricMap)
  labels : List String
  rowFunc : RowConverterKind
deriving DecidableEq, Repr

/-- `rowResult` from the source.  `ColumnIdx` is the Go `map[string]int`;
lookup of an absent key in a Go map yields the zero value `0`. -/
structure rowResult where
  ColumnNames : List String
  ColumnIdx : List (String × Nat)
  ColumnData : List CellValue
deriving DecidableEq, Repr

/-- The `val == nil` / `val.(string)` / `val.(int64)` cascade in the label
loop of `metricRowConverter`: `some` with the appended string, or `none`
when none of the three cases matches (in which case the source appends
nothing). -/
def labelValue : CellValue → Option String
  | .null => some ""
  | .str v => some v
  | .int v => some (toString v)
  | _ => none

/-- `result.ColumnData[result.ColumnIdx[name]]`: the cell a label name
resolves to (absent map keys give index `0`). -/
def labelValueOf (result : rowResult) (name : String) : CellValue :=
  result.ColumnData.getD ((result.ColumnIdx.lookup name).getD 0) .null

/-- The label-collection loop of `metricRowConverter`. -/
def collectLabels (result : rowResult) (labels : List String) : List String :=
  labels.foldl
    (fun acc name =>
      match labelValue (labelValueOf result name) with
      | some s => acc ++ [s]
      | none => acc)
    []

/-- Output of one converter invocation: the metrics sent on `ch`, the
non-fatal error slice, and the fatal error (the Go `([]error, error)` pair
plus the channel traffic). -/
structure ConvOutput where
  metrics : List Metric
  nonfatal : List ScrapeError
  fatal : Option ScrapeError
deriving DecidableEq, Repr

/-- Embedding of `metricRowConverter`. -/
def metricRowConverter (parse : String → Option ℚ) (m : MetricMapFromNamespace)
    (result : rowResult) : ConvOutput :=
  let labelValues := collectLabels result m.labels
  let out :=
    result.ColumnNames.enum.foldl
      (fun (acc : List Metric × List ScrapeError) (p : Nat × String) =>
        match m.columnMappings.lookup p.2 with
        | some metricMapping =>
            match dbToFloat64 parse (result.ColumnData.getD p.1 .null) with
            | (value, true) =>
                (acc.1 ++
                  [{ desc := metricMapping.desc, vtype := metricMapping.vtype,
                     value := value.scale metricMapping.multiplier,
                     labelValues := labelValues }],
                 acc.2)
            | (_, false) =>
                (acc.1,
                 acc.2 ++ [.parseColumn m.nspace p.2 (result.ColumnData.getD p.1 .null)])
        | none => acc)
      ([], [])
  { metrics := out.1, nonfatal := out.2, fatal := none }

/-- Embedding of `metricKVConverter`. -/
def metricKVConverter (parse : String → Option ℚ) (m : MetricMapFromNamespace)
    (result : rowResult) : ConvOutput :=
  if result.ColumnData.length < 2 then
    { metrics := [], nonfatal := [], fatal := some (.kvShortRow m.nspace result.ColumnData) }
  else
    match result.ColumnData.getD 0 .null with
    | .str key =>
        match m.columnMappings.lookup key with
        | some metricMapping =>
            match dbToFloat64 parse (result.ColumnData.getD 1 .null) with
            | (value, true) =>
                { metrics :=
                    [{ desc := metricMapping.desc, vtype := metricMapping.vtype,
                       value := value.scale metricMapping.multiplier, labelValues := [] }],
                  nonfatal := [], fatal := none }
            | (_, false) =>
                { metrics := [],
                  nonfatal := [.kvParse m.nspace key (result.ColumnData.getD 1 .null)],
                  fatal := none }
        | none => { metrics := [], nonfatal := [], fatal := none }
    | _ =>
        { metrics := [], nonfatal := [],
          fatal := some (.kvKeyNotString m.nspace result.ColumnData) }

/-- Dispatch through the `rowFunc` field. -/
def applyConverter (parse : String → Option ℚ) (kind : RowConverterKind)
    (m : MetricMapFromNamespace) (result : rowResult) : ConvOutput :=
  match kind with
  | .rowConv => metricRowConverter parse m result
  | .kvConv => metricKVConverter parse m result

/-- The `config` key-value schema table (`metricKVMaps` in the source),
transcribed as an association list in source text order. -/
def metricKVMaps : List (String × List (String × ColumnMapping)) :=
  [("config",
    [("listen_backlog", ⟨.COUNTER, "", "Maximum number of backlogged listen connections before further connection attempts are dropped"⟩),
     ("max_client_conn", ⟨.GAUGE, "", "Maximum number of client connections allowed"⟩),
     ("default_pool_size", ⟨.GAUGE, "", "The default for how many server connections to allow per user/database pair"⟩),
     ("min_pool_size", ⟨.GAUGE, "", "Mininum number of backends a pool will always retain."⟩),
     ("reserve_pool_size", ⟨.GAUGE, "", "How many additional connections to allow to a pool once it\x27s crossed it\x27s maximum"⟩),
     ("reserve_pool_timeout", ⟨.GAUGE, "reserve_pool_timeout_seconds", "If a client has not been serviced in this many seconds, pgbouncer enables use of additional connections from reserve pool."⟩),
     ("max_db_connections", ⟨.GAUGE, "", "Server level maximum connections enforced for a given db, irregardless of pool limits"⟩),
     ("max_user_connections", ⟨.GAUGE, "", "Maximum number of connections a user can open irregardless of pool limits"⟩),
     ("autodb_idle_timeout", ⟨.GAUGE, "autodb_idle_timeout_seconds", "Unused pools created via \x27*\x27 are reclaimed after this interval"⟩),
     ("server_reset_query_always", ⟨.GAUGE, "", "Boolean indicating whether or not server_reset_query is enforced for all pooling modes, or just session"⟩),
     ("server_check_delay", ⟨.GAUGE, "server_check_delay_seconds", "How long to keep released connections available for immediate re-use, without running sanity-check queries on it. If 0 then the query is ran always."⟩),
     ("query_timeout", ⟨.GAUGE, "query_timeout_seconds", "Maximum time that a query can run for before being cancelled."⟩),
     ("query_wait_timeout", ⟨.GAUGE, "query_wait_timeout_seconds", "Maximum time that a query can wait to be executed before being cancelled."⟩),
     ("client_idle_timeout", ⟨.GAUGE, "client_idle_timeout_seconds", "Client connections idling longer than this many seconds are closed"⟩),
     ("client_login_timeout", ⟨.GAUGE, "client_login_timeout_seconds", "Maximum time in seconds for a client to either login, or be disconnected"⟩),
     ("idle_transaction_timeout", ⟨.GAUGE, "idle_transaction_timeout_seconds", "If client has been in \x27idle in transaction\x27 state longer than this amount in seconds, it will be disconnected."⟩),
     ("server_lifetime", ⟨.GAUGE, "server_lifetime_seconds", "The pooler will close an unused server connection that has been connected longer than this many seconds"⟩),
     ("server_idle_timeout", ⟨.GAUGE, "server_idle_timeout_seconds", "If a server connection has been idle more than this many seconds it will be dropped"⟩),
     ("server_connect_timeout", ⟨.GAUGE, "server_connect_timeout_seconds", "Maximum time allowed for connecting and logging into a backend server"⟩),
     ("server_login_retry", ⟨.GAUGE, "server_login_retry_seconds", "If connecting to a backend failed, this is the wait interval in seconds before retrying"⟩),
     ("server_round_robin", ⟨.GAUGE, "", "Boolean; if 1, pgbouncer uses backends in a round robin fashion.  If 0, it uses LIFO to minimize connectivity to backends"⟩),
     ("suspend_timeout", ⟨.GAUGE, "suspend_timeout_seconds", "Timeout for how long pgbouncer waits for buffer flushes before killing connections during pgbouncer admin SHUTDOWN and SUSPEND invocations."⟩),
     ("disable_pqexec", ⟨.COUNTER, "", "Boolean; 1 means pgbouncer enforce Simple Query Protocol; 0 means it allows multiple queries in a single packet"⟩),
     ("dns_max_ttl", ⟨.GAUGE, "", "Irregardless of DNS TTL, this is the TTL that pgbouncer enforces for dns lookups it does for backends"⟩),
     ("dns_nxdomain_ttl", ⟨.GAUGE, "", "Irregardless of DNS TTL, this is the period enforced for negative DNS answers"⟩),
     ("dns_zone_check_period", ⟨.GAUGE, "dns_zone_check_period_seconds", "Period to check if zone serial has changed."⟩),
     ("max_packet_size", ⟨.GAUGE, "max_packet_size_bytes", "Maximum packet size for postgresql packets that pgbouncer will relay to backends"⟩),
     ("pkt_buf", ⟨.COUNTER, "pkt_buf_bytes", "Internal buffer size for packets.  See docs"⟩),
     ("sbuf_loopcnt", ⟨.GAUGE, "sbuf_loopcnt", "How many results to process for a given connection\x27s packet results before switching to others to ensure fairness.  See docs."⟩),
     ("tcp_defer_accept", ⟨.GAUGE, "", "Configurable for TCP_DEFER_ACCEPT"⟩),
     ("tcp_socket_buffer", ⟨.GAUGE, "tcp_socket_buffer_bytes", "Configurable for tcp socket buffering; 0 is kernel managed"⟩),
     ("tcpkeepalive", ⟨.GAUGE, "", "Boolean; if 1, tcp keepalive is enabled w/ OS defaults.  If 0, disabled."⟩),
     ("tcp_keepcnt", ⟨.GAUGE, "", "See TCP documentation for this field"⟩),
     ("tcp_keepidle", ⟨.GAUGE, "", "See TCP documentation for this field"⟩),
     ("tcp_keepintvl", ⟨.GAUGE, "", "See TCP documentation for this field"⟩),
     ("verbose", ⟨.GAUGE, "", "If log verbosity is increased.  Only relevant as a metric if log volume begins exceeding log consumption"⟩),
     ("stats_period", ⟨.GAUGE, "stats_period_seconds", "Periodicity in seconds of pgbouncer recalculating internal stats."⟩),
     ("log_connections", ⟨.GAUGE, "", "Whether connections are logged or not."⟩),
     ("log_disconnections", ⟨.GAUGE, "", "Whether connection disconnects are logged."⟩),
     ("log_pooler_errors", ⟨.GAUGE, "", "Whether pooler errors are logged or not"⟩),
     ("application_name_add_host", ⟨.GAUGE, "", "Whether pgbouncer add the client host address and port to the application name setting set on connection start or not"⟩)])]

/-- The row-group schema tables (`metricRowMaps` in the source), transcribed
as association lists in source text order. -/
def metricRowMaps : List (String × List (String × ColumnMapping)) :=
  [("databases",
    [("name", ⟨.LABEL, "", ""⟩),
     ("host", ⟨.LABEL, "", ""⟩),
     ("port", ⟨.LABEL, "", ""⟩),
     ("database", ⟨.LABEL, "", ""⟩),
     ("force_user", ⟨.LABEL, "", ""⟩),
     ("pool_size", ⟨.GAUGE, "", "Maximum number of connection per pool for backend connections"⟩),
     ("reserve_pool", ⟨.GAUGE, "reserve_pool_size", "Number of extra connections by which the pool_size can be exceeded temporarily"⟩),
     ("pool_mode", ⟨.LABEL, "", "Nature of connection pooling"⟩),
     ("max_connections", ⟨.GAUGE, "", "Maximum number of client connections allowed"⟩),
     ("current_connections", ⟨.GAUGE, "", "Current number of client connections"⟩),
     ("paused", ⟨.GAUGE, "", "Boolean indicating whether a pgbouncer PAUSE is currently active for this database"⟩),
     ("disabled", ⟨.GAUGE, "", "Boolean indicating whether a pgbouncer DISABLE is currently active for this database"⟩)]),
   ("lists",
    [("databases", ⟨.GAUGE, "", "Count of databases"⟩),
     ("users", ⟨.GAUGE, "", "Count of users"⟩),
     ("pools", ⟨.GAUGE, "", "Count of pools"⟩),
     ("free_clients", ⟨.GAUGE, "", "Count of free clients"⟩),
     ("used_clients", ⟨.GAUGE, "", "Count of used clients"⟩),
     ("login_clients", ⟨.GAUGE, "", "Count of clients in login state"⟩),
     ("free_servers", ⟨.GAUGE, "", "Count of free servers"⟩),
     ("used_servers", ⟨.GAUGE, "", "Count of used servers"⟩)]),
   ("pools",
    [("database", ⟨.LABEL, "", ""⟩),
     ("user", ⟨.LABEL, "", ""⟩),
     ("cl_active", ⟨.GAUGE, "", "Client connections linked to server connection and able to process queries, shown as connection"⟩),
     ("cl_waiting", ⟨.GAUGE, "", "Client connections waiting on a server connection, shown as connection"⟩),
     ("sv_active", ⟨.GAUGE, "", "Server connections linked to a client connection, shown as connection"⟩),
     ("sv_idle", ⟨.GAUGE, "", "Server connections idle and ready for a client query, shown as connection"⟩),
     ("sv_used", ⟨.GAUGE, "", "Server connections idle more than server_check_delay, needing server_check_query, shown as connection"⟩),
     ("sv_tested", ⟨.GAUGE, "", "Server connections currently running either server_reset_query or server_check_query, shown as connection"⟩),
     ("sv_login", ⟨.GAUGE, "", "Server connections currently in the process of logging in, shown as connection"⟩),
     ("maxwait", ⟨.GAUGE, "maxwait_seconds", "Age of oldest unserved client connection, shown as second"⟩),
     ("pool_mode", ⟨.LABEL, "", ""⟩)]),
   ("stats",
    [("database", ⟨.LABEL, "", ""⟩),
     ("avg_query_count", ⟨.GAUGE, "avg_queries_per_second", "Average queries per second in last stat period"⟩),
     ("avg_query", ⟨.GAUGE_MS, "avg_query_duration_microseconds", "The average query duration, shown as microsecond"⟩),
     ("avg_query_time", ⟨.GAUGE_MS, "avg_query_time_microseconds", "Average query time in microseconds"⟩),
     ("avg_recv", ⟨.GAUGE, "avg_data_recv_bytes_per_second", "Average received (from clients) bytes per second"⟩),
     ("avg_req", ⟨.GAUGE, "", "The average number of requests per second in last stat period, shown as request/second"⟩),
     ("avg_sent", ⟨.GAUGE, "", "Average sent (to clients) bytes per second"⟩),
     ("avg_wait_time", ⟨.GAUGE_MS, "avg_wait_time_microseconds", "Time spent by clients waiting for a server in microseconds (average per second)"⟩),
     ("avg_xact_count", ⟨.GAUGE, "", "Average transactions per second in last stat period"⟩),
     ("avg_xact_time", ⟨.GAUGE_MS, "avg_xact_time_microseconds", "Average transaction duration in microseconds"⟩),
     ("bytes_received_per_second", ⟨.GAUGE, "bytes_received_per_second_total", "The total network traffic received, shown as byte/second"⟩),
     ("bytes_sent_per_second", ⟨.GAUGE, "bytes_sent_per_second_total", "The total network traffic sent, shown as byte/second"⟩),
     ("total_query_count", ⟨.GAUGE, "query_count_total", "Total number of SQL queries pooled"⟩),
     ("total_query_time", ⟨.GAUGE_MS, "query_time_microseconds_total", "Total number of microseconds spent by pgbouncer when actively connected to PostgreSQL, executing queries"⟩),
     ("total_received", ⟨.GAUGE, "received_bytes_total", "Total volume in bytes of network traffic received by pgbouncer, shown as bytes"⟩),
     ("total_requests", ⟨.GAUGE, "requests_total", "Total number of SQL requests pooled by pgbouncer, shown as requests"⟩),
     ("total_sent", ⟨.GAUGE, "sent_bytes_total", "Total volume in bytes of network traffic sent by pgbouncer, shown as bytes"⟩),
     ("total_wait_time", ⟨.GAUGE_MS, "wait_time_microseconds_total", "Time spent by clients waiting for a server in microseconds"⟩),
     ("total_xact_count", ⟨.GAUGE, "xact_count_total", "Total number of SQL transactions pooled"⟩),
     ("total_xact_time", ⟨.GAUGE_MS, "xact_time_microseconds_total", "Total number of microseconds spent by pgbouncer when connected to PostgreSQL in a transaction, either idle in transaction or executing queries"⟩)])]

/-- The `convert` closure inside `makeMetricMaps`: compile one namespace's
column mappings into a `MetricMapFromNamespace`.  `metricNamespace` is the
configured prefix captured by the closure.  The Go switch has no case for
`LABEL`, so label columns get no entry in `thisMap`. -/
def convert (metricNamespace nspace : String) (mappings : List (String × ColumnMapping))
    (converter : RowConverterKind) : MetricMapFromNamespace :=
  let labels := (mappings.filter (fun p => p.2.usage == .LABEL)).map Prod.fst
  let thisMap :=
    mappings.foldl
      (fun (acc : List (String × MetricMap)) (p : String × ColumnMapping) =>
        let desc : Desc :=
          if p.2.promMetricName != "" then
            { fqName := metricNamespace ++ "_" ++ nspace ++ "_" ++ p.2.promMetricName,
              help := p.2.description, variableLabels := labels }
          else
            { fqName := metricNamespace ++ "_" ++ nspace ++ "_" ++ p.1,
              help := p.2.description, variableLabels := labels }
        match p.2.usage with
        | .COUNTER => acc ++ [(p.1, { vtype := .counterValue, desc := desc, multiplier := 1 })]
        | .GAUGE => acc ++ [(p.1, { vtype := .gaugeValue, desc := desc, multiplier := 1 })]
        | .GAUGE_MS => acc ++ [(p.1, { vtype := .gaugeValue, desc := desc, multiplier := 1 / 1000000 })]
        | .LABEL => acc)
      []
  { nspace := nspace, columnMappings := thisMap, labels := labels, rowFunc := converter }

/-- Embedding of `makeMetricMaps`: compile every namespace of both schema
tables, row-group namespaces with the row converter and key-value
namespaces with the KV converter. -/
def makeMetricMaps (metricNamespace : String) : List MetricMapFromNamespace :=
  (metricRowMaps.map (fun p => convert metricNamespace p.1 p.2 .rowConv)) ++
    (metricKVMaps.map (fun p => convert metricNamespace p.1 p.2 .kvConv))

/-- The `ColumnIdx` construction in `Query`: `for i, n := range ColumnNames
\x7b ColumnIdx[n] = i \x7d`.  Entries are prepended so that a later duplicate
column name shadows an earlier one, as Go map assignment overwrites. -/
def buildColumnIdx (names : List String) : List (String × Nat) :=
  names.enum.foldl (fun acc (p : Nat × String) => (p.2, p.1) :: acc) []

/-- One attempt of the driver to scan the next row: either `rows.Scan`
fails, or it delivers the row's cell values. -/
inductive RowOutcome where
  | scanFail
  | data (row : List CellValue)
deriving DecidableEq, Repr

/-- The successful part of a driver response: the column list, the
successive row outcomes, and whether `rows.Err()` reports an error after
the iteration ends. -/
structure NamespaceData where
  columnNames : List String
  rows : List RowOutcome
  rowsErr : Bool
deriving DecidableEq, Repr

/-- A driver response to one query string: `db.Query` itself fails,
`rows.Columns()` fails, or the query succeeds with tabular data. -/
inductive DBResponse where
  | queryFail
  | columnsFail
  | ok (d : NamespaceData)
deriving DecidableEq, Repr

/-- Result of `MetricMapFromNamespace.Query`: channel traffic plus the Go
`([]error, error)` return value. -/
structure QueryOutput where
  metrics : List Metric
  nonfatal : List ScrapeError
  fatal : Option ScrapeError
deriving DecidableEq, Repr

/-- The `for rows.Next()` loop of `Query`.  `ms` and `nf` are the metrics
already sent and the `nonfatalErrors` slice accumulated so far.  A scan
failure returns the fatal error with a fresh empty error slice (the
source's `return []error\x7b\x7d, ...`); a converter fatal error returns
the slice accumulated so far; after a normal end of iteration a
`rows.Err()` error is appended as one more non-fatal error. -/
def queryLoop (parse : String → Option ℚ) (m : MetricMapFromNamespace) (base : rowResult) :
    List RowOutcome → Bool → List Metric → List ScrapeError → QueryOutput
  | [], rowsErr, ms, nf =>
      if rowsErr then
        { metrics := ms, nonfatal := nf ++ [.rowsIterationError m.nspace], fatal := none }
      else { metrics := ms, nonfatal := nf, fatal := none }
  | .scanFail :: _, _, ms, _ =>
      { metrics := ms, nonfatal := [], fatal := some (.scanError m.nspace) }
  | .data row :: rest, rowsErr, ms, nf =>
      let out := applyConverter parse m.rowFunc m { base with ColumnData := row }
      match out.fatal with
      | some e => { metrics := ms ++ out.metrics, nonfatal := nf ++ out.nonfatal, fatal := some e }
      | none => queryLoop parse m base rest rowsErr (ms ++ out.metrics) (nf ++ out.nonfatal)

/-- Embedding of `MetricMapFromNamespace.Query`: issue `SHOW <namespace>;`,
read the column list, then scan and convert each row. -/
def Query (parse : String → Option ℚ) (m : MetricMapFromNamespace)
    (db : String → DBResponse) : QueryOutput :=
  match db ("SHOW " ++ m.nspace ++ ";") with
  | .queryFail => { metrics := [], nonfatal := [], fatal := some (.queryError m.nspace) }
  | .columnsFail => { metrics := [], nonfatal := [], fatal := some (.columnsError m.nspace) }
  | .ok d =>
      queryLoop parse m
        { ColumnNames := d.columnNames, ColumnIdx := buildColumnIdx d.columnNames,
          ColumnData := [] }
        d.rows d.rowsErr [] []

/-- The process-wide health gauges of the `Exporter`. -/
structure GaugeState where
  up : ℚ
  duration : ℚ
  totalScrapes : ℚ
  error : ℚ
deriving DecidableEq, Repr

/-- Result of one `scrape` call: the final gauge state, the metrics sent on
the channel, the trace of query strings issued to the database, and whether
`log.Fatal` was reached (`os.Exit`, which also skips the deferred
duration update). -/
structure ScrapeResult where
  state : GaugeState
  metrics : List Metric
  queries : List String
  terminated : Bool
deriving DecidableEq, Repr

/-- The `for _, mapping := range e.metricMap` loop in `scrape`.  On a fatal
error from `Query` the source calls `log.Fatal(err)` (terminating the
process before `e.error.Add` runs); otherwise the non-fatal error count is
added to the `error` gauge and the loop continues. -/
def scrapeLoop (parse : String → Option ℚ) (db : String → DBResponse) :
    List MetricMapFromNamespace → GaugeState → List Metric → List String →
      GaugeState × List Metric × List String × Bool
  | [], st, ms, qs => (st, ms, qs, false)
  | m :: rest, st, ms, qs =>
      let out := Query parse m db
      let qs' := qs ++ ["SHOW " ++ m.nspace ++ ";"]
      match out.fatal with
      | some _ => (st, ms ++ out.metrics, qs', true)
      | none =>
          scrapeLoop parse db rest { st with error := st.error + out.nonfatal.length }
            (ms ++ out.metrics) qs'

/-- Embedding of `Exporter.scrape`.  `d` is the elapsed duration in seconds
that the deferred `e.duration.Set` records on any return (but not on
`log.Fatal`, since `os.Exit` skips deferred functions).  The liveness probe
is `e.db.Query("SHOW STATS")`, whose rows are closed unread, so only a
query-issue failure counts as probe failure. -/
def scrape (parse : String → Option ℚ) (db : String → DBResponse)
    (maps : List MetricMapFromNamespace) (d : ℚ) (s0 : GaugeState) : ScrapeResult :=
  let s1 := { s0 with error := 0, totalScrapes := s0.totalScrapes + 1 }
  match db "SHOW STATS" with
  | .queryFail =>
      { state := { s1 with error := 1, up := 0, duration := d },
        metrics := [], queries := ["SHOW STATS"], terminated := false }
  | _ =>
      let s2 := { s1 with up := 1 }
      let r := scrapeLoop parse db maps s2 [] ["SHOW STATS"]
      if r.2.2.2 then
        { state := r.1, metrics := r.2.1, queries := r.2.2.1, terminated := true }
      else
        { state := { r.1 with duration := d }, metrics := r.2.1, queries := r.2.2.1,
          terminated := false }

/-- Embedding of `Exporter.Collect`: run one scrape, then send the four
health gauges (`duration`, `up`, `totalScrapes`, `error`) on the channel.
When the scrape reached `log.Fatal` the process died and the gauges were
never sent, modelled by `none` in the second component. -/
def Collect (parse : String → Option ℚ) (db : String → DBResponse)
    (maps : List MetricMapFromNamespace) (d : ℚ) (s0 : GaugeState) :
    ScrapeResult × Option GaugeState :=
  let r := scrape parse db maps d s0
  (r, if r.terminated then none else some r.state)

/-- The shared-gauge operations `scrape` performs on the `Exporter`'s
mutable state, for the interleaving analysis of concurrent `Collect`
calls. -/
inductive Instr where
  | rlock
  | runlock
  | setError (v : ℚ)
  | incTotal
  | setUp (v : ℚ)
  | addError (v : ℚ)
deriving DecidableEq, Repr

/-- The mutable state shared between concurrent scrapes: the reader count
of the `sync.RWMutex` and the health gauges. -/
structure SharedState where
  readers : Nat
  up : ℚ
  totalScrapes : ℚ
  error : ℚ
deriving DecidableEq, Repr

/-- Small-step semantics of one shared-state operation.  The program never
takes the write lock (`scrape` only ever calls `RLock`/`RUnlock`), so under
`sync.RWMutex` semantics `RLock` never blocks: it merely increments the
count of readers inside the critical section. -/
def stepInstr : SharedState → Instr → SharedState
  | s, .rlock => { s with readers := s.readers + 1 }
  | s, .runlock => { s with readers := s.readers - 1 }
  | s, .setError v => { s with error := v }
  | s, .incTotal => { s with totalScrapes := s.totalScrapes + 1 }
  | s, .setUp v => { s with up := v }
  | s, .addError v => { s with error := s.error + v }

/-- The shared-gauge instruction trace of one successful poll whose
namespace loop accumulates `n` non-fatal errors: `RLock`; `error.Set(0)`;
`totalScrapes.Inc()`; `up.Set(1)`; `error.Add(n)`; deferred `RUnlock`. -/
def pollProgram (n : ℚ) : List Instr :=
  [.rlock, .setError 0, .incTotal, .setUp 1, .addError n, .runlock]

/-- Interleaving semantics of two goroutines each running a list of
shared-state instructions; `true` schedules a step of the first thread,
`false` one of the second (a step of an exhausted thread is a no-op). -/
def runSched : List Bool → SharedState × List Instr × List Instr →
    SharedState × List Instr × List Instr
  | [], cfg => cfg
  | b :: rest, (s, t1, t2) =>
      if b then
        match t1 with
        | [] => runSched rest (s, [], t2)
        | i :: is => runSched rest (stepInstr s i, is, t2)
      else
        match t2 with
        | [] => runSched rest (s, t1, [])
        | i :: is => runSched rest (stepInstr s i, t1, is)

/-- Shared state before any poll runs. -/
def initShared : SharedState := { readers := 0, up := 0, totalScrapes := 0, error := 0 }

/-- Folding a step that appends an optional element equals appending the
`filterMap` of the list. -/
theorem foldl_append_toList {α β : Type} (h : α → Option β) :
    ∀ (l : List α) (acc : List β),
      l.foldl (fun a p => a ++ (h p).toList) acc = acc ++ l.filterMap h
  | [], acc => by simp
  | p :: l, acc => by
    rw [List.foldl_cons, foldl_append_toList h l, List.filterMap_cons]
    cases h p <;> simp

/-- Pair version of `foldl_append_toList`: a fold accumulating two optional
streams equals the pair of `filterMap`s. -/
theorem foldl_pair_filterMap {α β γ : Type} (f : α → Option β) (g : α → Option γ) :
    ∀ (l : List α) (ms : List β) (nf : List γ),
      l.foldl (fun acc p => (acc.1 ++ (f p).toList, acc.2 ++ (g p).toList)) (ms, nf) =
        (ms ++ l.filterMap f, nf ++ l.filterMap g)
  | [], ms, nf => by simp
  | p :: l, ms, nf => by
    rw [List.foldl_cons, foldl_pair_filterMap f g l, List.filterMap_cons,
      List.filterMap_cons]
    cases f p <;> cases g p <;> simp

/-- A parse oracle that fails on every string (used for concrete inputs
whose interesting cells are not textual). -/
def parse0 : String → Option ℚ := fun _ => none

/-- **C3.** `dbToFloat64` returns: an integer or floating-point cell's
exact numeric value with ok = true; a timestamp cell's seconds-since-epoch
with ok = true; for a textual or raw-byte cell the base-10 float parse of
the decoded text with ok = true on success and (NaN, false) on failure;
(NaN, true) for a null cell; and (NaN, false) for any other
representation. -/
theorem dbToFloat64_spec (parse : String → Option ℚ) :
    (∀ v : Int, dbToFloat64 parse (.int v) = (.num v, true)) ∧
    (∀ q : ℚ, dbToFloat64 parse (.float q) = (.num q, true)) ∧
    (∀ u : Int, dbToFloat64 parse (.timestamp u) = (.num u, true)) ∧
    (∀ s : String, dbToFloat64 parse (.str s) =
      match parse s with
      | some r => (.num r, true)
      | none => (.nan, false)) ∧
    (∀ s : String, dbToFloat64 parse (.bytes s) =
      match parse s with
      | some r => (.num r, true)
      | none => (.nan, false)) ∧
    dbToFloat64 parse .null = (.nan, true) ∧
    dbToFloat64 parse .other = (.nan, false) := by
  refine ⟨fun _ => rfl, fun _ => rfl, fun _ => rfl, fun s => ?_, fun s => ?_, rfl, rfl⟩ <;>
    cases hp : parse s <;> simp [dbToFloat64, hp]

/-- Descriptor of the value column used in the concrete label-resolution
inputs below. -/
def descC2 : Desc := { fqName := "pgbouncer_pools_v", help := "", variableLabels := ["x"] }

/-- A namespace map with one label column `x` and one gauge column `v`. -/
def mC2 : MetricMapFromNamespace :=
  { nspace := "pools",
    columnMappings := [("v", { vtype := .gaugeValue, desc := descC2, multiplier := 1 })],
    labels := ["x"], rowFunc := .rowConv }

/-- A row whose label column `x` holds a `float64` cell. -/
def rC2 : rowResult :=
  { ColumnNames := ["x", "v"], ColumnIdx := buildColumnIdx ["x", "v"],
    ColumnData := [.float (5 / 2), .int 3] }

/-- A row whose label column `x` holds a text cell `"db1"`. -/
def rC2' : rowResult := { rC2 with ColumnData := [.str "db1", .int 3] }

/-- **C2** fails as stated: a label cell of a kind other than null, string
or int64 (here a `float64`) contributes no label entry at all rather than
an empty string, so the emitted label-value list does not have one entry
per label column; and a text label cell is resolved to its own value, not
to the empty string. -/
theorem row_label_resolution_counterexample :
    (∃ metric ∈ (metricRowConverter parse0 mC2 rC2).metrics,
       metric.labelValues.length ≠ mC2.labels.length) ∧
    (∃ metric ∈ (metricRowConverter parse0 mC2 rC2').metrics,
       metric.labelValues ≠ [""]) := by decide

/-- Each label's contribution to the label loop's output, as an optional
appended string. -/
theorem collectLabels_join (result : rowResult) :
    ∀ (labels acc : List String),
      List.foldl
        (fun acc name =>
          match labelValue (labelValueOf result name) with
          | some s => acc ++ [s]
          | none => acc)
        acc labels =
      acc ++ (labels.map fun name => (labelValue (labelValueOf result name)).toList).flatten
  | [], acc => by simp
  | name :: labels, acc => by
    rw [List.foldl_cons, collectLabels_join result labels]
    cases h : labelValue (labelValueOf result name) <;> simp [h]

/-- **C2 amended.** The row converter returns no fatal error, and resolves
label columns in the `labels` order fixed at build time as follows: a null
cell contributes the empty string, a text cell contributes its own value,
an int64 cell contributes its base-10 text form, and a cell of any other
kind contributes nothing at all (no entry is appended), so the emitted
label-value list can be shorter than the label-column list. -/
theorem row_label_resolution_amended (parse : String → Option ℚ)
    (m : MetricMapFromNamespace) (result : rowResult) :
    (metricRowConverter parse m result).fatal = none ∧
    collectLabels result m.labels =
      (m.labels.map fun name =>
        match labelValueOf result name with
        | .null => [""]
        | .str v => [v]
        | .int v => [toString v]
        | _ => []).flatten := by
  refine ⟨rfl, ?_⟩
  unfold collectLabels
  rw [collectLabels_join]
  rw [List.nil_append]
  refine congrArg List.flatten (List.map_congr_left fun name _ => ?_)
  cases labelValueOf result name <;> rfl

/-- The metric emitted (if any) for one enumerated result column by the
value loop of the row converter. -/
def rowMetricAt (parse : String → Option ℚ) (m : MetricMapFromNamespace)
    (result : rowResult) (p : Nat × String) : Option Metric :=
  match m.columnMappings.lookup p.2 with
  | some mm =>
      match dbToFloat64 parse (result.ColumnData.getD p.1 .null) with
      | (value, true) =>
          some { desc := mm.desc, vtype := mm.vtype,
                 value := value.scale mm.multiplier,
                 labelValues := collectLabels result m.labels }
      | (_, false) => none
  | none => none

/-- The non-fatal error produced (if any) for one enumerated result column
by the value loop of the row converter. -/
def rowErrorAt (parse : String → Option ℚ) (m : MetricMapFromNamespace)
    (result : rowResult) (p : Nat × String) : Option ScrapeError :=
  match m.columnMappings.lookup p.2 with
  | some _ =>
      match dbToFloat64 parse (result.ColumnData.getD p.1 .null) with
      | (_, true) => none
      | (_, false) => some (.parseColumn m.nspace p.2 (result.ColumnData.getD p.1 .null))
  | none => none

/-- **C4.** The row converter never returns a fatal error; per enumerated
result column it emits exactly one observation (coerced value times the
column's multiplier, with the column's value kind) when the column is
mapped and coercion succeeds, records exactly one non-fatal error naming
the namespace and column when the column is mapped and coercion fails, and
contributes nothing when the column is absent from the compiled map — each
column independently, so no failure aborts the rest of the row. -/
theorem metricRowConverter_spec (parse : String → Option ℚ)
    (m : MetricMapFromNamespace) (result : rowResult) :
    (metricRowConverter parse m result).fatal = none ∧
    (metricRowConverter parse m result).metrics =
      result.ColumnNames.enum.filterMap (rowMetricAt parse m result) ∧
    (metricRowConverter parse m result).nonfatal =
      result.ColumnNames.enum.filterMap (rowErrorAt parse m result) := by
  have hext :
      List.foldl
        (fun (acc : List Metric × List ScrapeError) (p : Nat × String) =>
          match m.columnMappings.lookup p.2 with
          | some metricMapping =>
              match dbToFloat64 parse (result.ColumnData.getD p.1 .null) with
              | (value, true) =>
                  (acc.1 ++
                    [{ desc := metricMapping.desc, vtype := metricMapping.vtype,
                       value := value.scale metricMapping.multiplier,
                       labelValues := collectLabels result m.labels }],
                   acc.2)
              | (_, false) =>
                  (acc.1,
                   acc.2 ++ [.parseColumn m.nspace p.2 (result.ColumnData.getD p.1 .null)])
          | none => acc)
        ([], []) result.ColumnNames.enum =
      List.foldl
        (fun acc p =>
          (acc.1 ++ (rowMetricAt parse m result p).toList,
           acc.2 ++ (rowErrorAt parse m result p).toList))
        ([], []) result.ColumnNames.enum := by
    refine List.foldl_ext _ _ _ fun acc p _ => ?_
    unfold rowMetricAt rowErrorAt
    rcases hl : m.columnMappings.lookup p.2 with _ | mm
    · simp
    · rcases hdb : dbToFloat64 parse (result.ColumnData.getD p.1 .null) with ⟨v, b⟩
      cases b <;> simp
  refine ⟨rfl, ?_, ?_⟩
  · show (List.foldl _ ([], []) result.ColumnNames.enum).fst = _
    rw [hext, foldl_pair_filterMap]
    simp
  · show (List.foldl _ ([], []) result.ColumnNames.enum).snd = _
    rw [hext, foldl_pair_filterMap]
    simp

/-- **C5.** The key-value converter returns a fatal error (and emits
nothing, with no non-fatal errors) exactly when the row has fewer than two
columns or its first column is not text.  Otherwise, with text key and at
least two columns: an unmapped key is silently ignored with no error and
no emission; for a mapped key a coercion failure of the second column
yields exactly one non-fatal error and no emission, and a coercion success
emits exactly one observation equal to the coerced value times the
multiplier, with zero labels. -/
theorem metricKVConverter_spec (parse : String → Option ℚ)
    (m : MetricMapFromNamespace) (result : rowResult) :
    ((metricKVConverter parse m result).fatal ≠ none ↔
      (result.ColumnData.length < 2 ∨
        ∀ s : String, result.ColumnData.getD 0 .null ≠ .str s)) ∧
    ((metricKVConverter parse m result).fatal ≠ none →
      (metricKVConverter parse m result).metrics = [] ∧
        (metricKVConverter parse m result).nonfatal = []) ∧
    (∀ key : String, 2 ≤ result.ColumnData.length →
      result.ColumnData.getD 0 .null = .str key →
      (m.columnMappings.lookup key = none →
        metricKVConverter parse m result = { metrics := [], nonfatal := [], fatal := none }) ∧
      (∀ mm : MetricMap, m.columnMappings.lookup key = some mm →
        ((dbToFloat64 parse (result.ColumnData.getD 1 .null)).2 = false →
          metricKVConverter parse m result =
            { metrics := [],
              nonfatal := [.kvParse m.nspace key (result.ColumnData.getD 1 .null)],
              fatal := none }) ∧
        ((dbToFloat64 parse (result.ColumnData.getD 1 .null)).2 = true →
          metricKVConverter parse m result =
            { metrics :=
                [{ desc := mm.desc, vtype := mm.vtype,
                   value := (dbToFloat64 parse (result.ColumnData.getD 1 .null)).1.scale
                     mm.multiplier,
                   labelValues := [] }],
              nonfatal := [], fatal := none }))) := by
  by_cases hlen : result.ColumnData.length < 2
  · refine ⟨⟨fun _ => Or.inl hlen, fun _ => ?_⟩, fun _ => ?_, fun key hk hkey => ?_⟩
    · simp [metricKVConverter, hlen]
    · simp [metricKVConverter, hlen]
    · omega
  · unfold metricKVConverter
    rw [if_neg hlen]
    rcases hfirst : result.ColumnData.getD 0 .null with v | v | u | s | key | _ | _
    all_goals try
      exact ⟨⟨fun _ => Or.inr fun s h => CellValue.noConfusion h, fun _ h => Option.noConfusion h⟩,
        fun _ => ⟨rfl, rfl⟩, fun key hk hkey => CellValue.noConfusion hkey⟩
    dsimp only
    rcases hl : m.columnMappings.lookup key with _ | mm
    · refine ⟨⟨fun h => absurd rfl h, fun h => ?_⟩, fun h => absurd rfl h, fun key2 hk hkey => ?_⟩
      · rcases h with h | h
        · exact absurd h hlen
        · exact absurd rfl (h key)
      · rw [CellValue.str.injEq] at hkey
        subst hkey
        refine ⟨fun _ => rfl, fun mm2 hmm2 => ?_⟩
        rw [hl] at hmm2
        cases hmm2
    · rcases hdb : dbToFloat64 parse (result.ColumnData.getD 1 .null) with ⟨v, b⟩
      cases b
      · refine ⟨⟨fun h => absurd rfl h, fun h => ?_⟩, fun h => absurd rfl h, fun key2 hk hkey => ?_⟩
        · rcases h with h | h
          · exact absurd h hlen
          · exact absurd rfl (h key)
        · rw [CellValue.str.injEq] at hkey
          subst hkey
          refine ⟨fun hnone => ?_, fun mm2 hmm2 => ?_⟩
          · rw [hl] at hnone
            cases hnone
          · rw [hl] at hmm2
            cases hmm2
            exact ⟨fun _ => rfl, fun hok => Bool.noConfusion hok⟩
      · refine ⟨⟨fun h => absurd rfl h, fun h => ?_⟩, fun h => absurd rfl h, fun key2 hk hkey => ?_⟩
        · rcases h with h | h
          · exact absurd h hlen
          · exact absurd rfl (h key)
        · rw [CellValue.str.injEq] at hkey
          subst hkey
          refine ⟨fun hnone => ?_, fun mm2 hmm2 => ?_⟩
          · rw [hl] at hnone
            cases hnone
          · rw [hl] at hmm2
            cases hmm2
            exact ⟨fun hbad => Bool.noConfusion hbad, fun _ => rfl⟩

/-- A parse oracle succeeding exactly on the text `"100"`. -/
def parse100 : String → Option ℚ := fun s => if s = "100" then some 100 else none

/-- The compiled `config` namespace map, as built by `makeMetricMaps`. -/
def mConfig : MetricMapFromNamespace :=
  convert "pgbouncer" "config" ((metricKVMaps.lookup "config").getD []) .kvConv

/-- The compiled entry for `max_client_conn` in the `config` namespace. -/
def mmMaxClientConn : MetricMap :=
  { vtype := .gaugeValue,
    desc := { fqName := "pgbouncer_config_max_client_conn",
              help := "Maximum number of client connections allowed", variableLabels := [] },
    multiplier := 1 }

/-- The row `("max_client_conn", "100")` of a `SHOW CONFIG` result. -/
def rKV : rowResult :=
  { ColumnNames := ["key", "value"], ColumnIdx := buildColumnIdx ["key", "value"],
    ColumnData := [.str "max_client_conn", .str "100"] }

/-- Witness for C5: key-value conversion of `("max_client_conn", "100")`
against the `config` namespace emits exactly one unlabeled gauge
observation of value 100. -/
theorem metricKVConverter_spec_witness :
    metricKVConverter parse100 mConfig rKV =
      { metrics := [{ desc := mmMaxClientConn.desc, vtype := mmMaxClientConn.vtype,
                      value := .num 100, labelValues := [] }],
        nonfatal := [], fatal := none } := by
  have h := ((metricKVConverter_spec parse100 mConfig rKV).2.2 "max_client_conn"
      (by decide) rfl).2 mmMaxClientConn (by decide)
  rw [h.2 (by decide)]
  simp [rKV, mmMaxClientConn, dbToFloat64, parse100, FloatVal.scale]

/-- Folding prepends of enumerated entries: looking up a name that is not
among the entry names falls through to the accumulator. -/
theorem lookup_foldPrepend (name : String) :
    ∀ (l : List (Nat × String)) (acc : List (String × Nat)),
      name ∉ l.map Prod.snd →
      (l.foldl (fun a p => (p.2, p.1) :: a) acc).lookup name = acc.lookup name
  | [], _, _ => rfl
  | p :: l, acc, h => by
    rw [List.map_cons, List.mem_cons, not_or] at h
    rw [List.foldl_cons, lookup_foldPrepend name l ((p.2, p.1) :: acc) h.2,
      List.lookup_cons]
    have hb : (name == p.2) = false := beq_eq_false_iff_ne.mpr h.1
    rw [hb]

/-- A Go map built by `ColumnIdx[n] = i` contains no entry for a column
name that never occurs, so indexing it yields the zero value. -/
theorem buildColumnIdx_lookup_not_mem (names : List String) (name : String)
    (h : name ∉ names) : (buildColumnIdx names).lookup name = none := by
  have hm : name ∉ names.enum.map Prod.snd := by
    rw [List.enum_eq_enumFrom, List.enumFrom_map_snd]
    exact h
  unfold buildColumnIdx
  exact lookup_foldPrepend name names.enum [] hm

/-- **C9.** When a compiled label column's name does not occur among the
result's columns, the row converter does not fail: the Go map lookup of
the missing name yields the zero value 0, so the label is silently
resolved from the value of the result's first column.  The length
hypotheses pin the claimed domain, a scanned row with at least one
column. -/
theorem missing_label_resolves_to_first_column (parse : String → Option ℚ)
    (m : MetricMapFromNamespace) (names : List String) (data : List CellValue)
    (name : String) (_hmem : name ∈ m.labels) (hnot : name ∉ names)
    (_hlen : data.length = names.length) (_hpos : 0 < names.length) :
    (metricRowConverter parse m
        { ColumnNames := names, ColumnIdx := buildColumnIdx names,
          ColumnData := data }).fatal = none ∧
    ((buildColumnIdx names).lookup name).getD 0 = 0 ∧
    labelValueOf
        { ColumnNames := names, ColumnIdx := buildColumnIdx names, ColumnData := data }
        name = data.getD 0 .null := by
  refine ⟨rfl, ?_, ?_⟩
  · rw [buildColumnIdx_lookup_not_mem names name hnot]
    rfl
  · unfold labelValueOf
    rw [buildColumnIdx_lookup_not_mem names name hnot]
    rfl

/-- Witness for C9 at a concrete input: label `x` of `mC2` is absent from
a one-column result, and resolves to the first column's cell. -/
theorem missing_label_resolves_to_first_column_witness :
    (metricRowConverter parse0 mC2
        { ColumnNames := ["a"], ColumnIdx := buildColumnIdx ["a"],
          ColumnData := [.str "v0"] }).fatal = none ∧
    ((buildColumnIdx ["a"]).lookup "x").getD 0 = 0 ∧
    labelValueOf
        { ColumnNames := ["a"], ColumnIdx := buildColumnIdx ["a"],
          ColumnData := [.str "v0"] }
        "x" = (([.str "v0"] : List CellValue)).getD 0 .null :=
  missing_label_resolves_to_first_column parse0 mC2 ["a"] [.str "v0"] "x"
    (by decide) (by decide) rfl (by decide)

/-- **C10.** In the per-namespace query loop: a row-scan failure returns
the fatal scan error together with an empty non-fatal-error list,
discarding the errors accumulated from earlier rows (metrics already sent
stay sent); a fatal error reported by the row converter is instead
returned together with the non-fatal errors accumulated so far (including
the failing row's own non-fatal errors). -/
theorem queryLoop_fatal_spec (parse : String → Option ℚ) (m : MetricMapFromNamespace)
    (base : rowResult) (rest : List RowOutcome) (rowsErr : Bool)
    (ms : List Metric) (nf : List ScrapeError) :
    (queryLoop parse m base (.scanFail :: rest) rowsErr ms nf =
      { metrics := ms, nonfatal := [], fatal := some (.scanError m.nspace) }) ∧
    (∀ row : List CellValue,
      (applyConverter parse m.rowFunc m { base with ColumnData := row }).fatal ≠ none →
      queryLoop parse m base (.data row :: rest) rowsErr ms nf =
        { metrics :=
            ms ++ (applyConverter parse m.rowFunc m { base with ColumnData := row }).metrics,
          nonfatal :=
            nf ++ (applyConverter parse m.rowFunc m { base with ColumnData := row }).nonfatal,
          fatal := (applyConverter parse m.rowFunc m { base with ColumnData := row }).fatal }) := by
  refine ⟨rfl, fun row hfat => ?_⟩
  rcases hf : (applyConverter parse m.rowFunc m { base with ColumnData := row }).fatal with _ | e
  · exact absurd hf hfat
  · simp only [queryLoop, hf]

/-- The empty base result the query loop starts from for the `config`
namespace. -/
def rKVbase : rowResult :=
  { ColumnNames := ["key", "value"], ColumnIdx := buildColumnIdx ["key", "value"],
    ColumnData := [] }

/-- Witness for C10 at concrete inputs: with one already-accumulated
non-fatal error, a scan failure discards it, while a converter fatal error
(a one-column KV row) keeps it. -/
theorem queryLoop_fatal_spec_witness :
    (queryLoop parse0 mConfig rKVbase [.scanFail] false [] [.queryError "x"] =
      { metrics := [], nonfatal := [], fatal := some (.scanError "config") }) ∧
    (queryLoop parse0 mConfig rKVbase [.data [.int 1]] false [] [.queryError "x"] =
      { metrics := [], nonfatal := [.queryError "x"],
        fatal := some (.kvShortRow "config" [.int 1]) }) := by
  have h := queryLoop_fatal_spec parse0 mConfig rKVbase [] false [] [.queryError "x"]
  refine ⟨h.1, ?_⟩
  rw [h.2 [.int 1] (by decide)]
  decide

/-- The namespace loop never writes the `up` gauge. -/
theorem scrapeLoop_up (parse : String → Option ℚ) (db : String → DBResponse) :
    ∀ (maps : List MetricMapFromNamespace) (st : GaugeState) (ms : List Metric)
      (qs : List String), (scrapeLoop parse db maps st ms qs).1.up = st.up
  | [], _, _, _ => rfl
  | m :: rest, st, ms, qs => by
    rcases hf : (Query parse m db).fatal with _ | e
    · simp only [scrapeLoop, hf]
      exact scrapeLoop_up parse db rest _ _ _
    · simp only [scrapeLoop, hf]

/-- **C7.** When the liveness probe fails, `scrape` sets `up = 0` (and the
error gauge to 1), records the poll duration, and ends the poll early: the
only query issued is the probe itself and no metrics are emitted, while
the orchestrator returns normally (no termination) with the scrape counter
bumped.  When the probe succeeds, `up` is set to 1 before the namespaces
are scraped and remains 1. -/
theorem scrape_liveness_spec (parse : String → Option ℚ) (db : String → DBResponse)
    (maps : List MetricMapFromNamespace) (d : ℚ) (s0 : GaugeState) :
    (db "SHOW STATS" = .queryFail →
      scrape parse db maps d s0 =
        { state := { up := 0, duration := d, totalScrapes := s0.totalScrapes + 1,
                     error := 1 },
          metrics := [], queries := ["SHOW STATS"], terminated := false }) ∧
    (db "SHOW STATS" ≠ .queryFail → (scrape parse db maps d s0).state.up = 1) := by
  constructor
  · intro h
    unfold scrape
    rw [h]
  · intro h
    rcases hdb : db "SHOW STATS" with _ | _ | d0
    · exact absurd hdb h
    all_goals
      simp only [scrape, hdb]
      have hup := scrapeLoop_up parse db maps
        { s0 with error := 0, totalScrapes := s0.totalScrapes + 1, up := 1 } []
        ["SHOW STATS"]
      rcases hterm : scrapeLoop parse db maps
          { s0 with error := 0, totalScrapes := s0.totalScrapes + 1, up := 1 } []
          ["SHOW STATS"] with ⟨st, ms, qs, b⟩
      rw [hterm] at hup
      cases b <;> simpa using hup

/-- A database that is down: every query fails. -/
def dbDown : String → DBResponse := fun _ => .queryFail

/-- Witness for C7 at a concrete input: a failed probe yields `up = 0`, a
recorded duration, no metrics, no namespace queries and no termination. -/
theorem scrape_liveness_spec_witness :
    scrape parse0 dbDown (makeMetricMaps "pgbouncer") 3
        { up := 1, duration := 0, totalScrapes := 6, error := 0 } =
      { state := { up := 0, duration := 3, totalScrapes := 7, error := 1 },
        metrics := [], queries := ["SHOW STATS"], terminated := false } := by
  have h := (scrape_liveness_spec parse0 dbDown (makeMetricMaps "pgbouncer") 3
      { up := 1, duration := 0, totalScrapes := 6, error := 0 }).1 rfl
  rw [h]
  simp only [ScrapeResult.mk.injEq, GaugeState.mk.injEq]
  norm_num

/-- A database whose probe succeeds but where every namespace status query
fails. -/
def dbStatsOnly : String → DBResponse := fun q =>
  if q = "SHOW STATS" then .ok { columnNames := [], rows := [], rowsErr := false }
  else .queryFail

/-- **C1 (code bug).** With the probe up and the first namespace query
failing, `scrape` reaches `log.Fatal`: the poll does not return the error
to the caller — the process terminates, and the deferred duration update
never runs (the duration gauge keeps its initial 0 rather than the elapsed
7). -/
theorem fatal_query_error_terminates_process :
    (scrape parse0 dbStatsOnly (makeMetricMaps "pgbouncer") 7
        { up := 0, duration := 0, totalScrapes := 0, error := 0 }).terminated = true ∧
    (scrape parse0 dbStatsOnly (makeMetricMaps "pgbouncer") 7
        { up := 0, duration := 0, totalScrapes := 0, error := 0 }).state.duration = 0 := by
  constructor <;> rfl

/-- **C8 (code bug).** Two concurrent polls can interleave: because
`scrape` takes only the shared read lock, both pollers may be inside the
critical section at once (two active readers), and an interleaved schedule
leaves the error gauge at 7 — a mix of the two polls' error counts (2 and
5) that neither serial order (which yield 5 and 2) can produce, i.e. a
torn observation. -/
theorem scrape_rlock_interleaving :
    ((runSched (List.replicate 4 true ++ [false])
        (initShared, pollProgram 2, pollProgram 5)).1.readers = 2) ∧
    ((runSched
        (List.replicate 4 true ++ List.replicate 4 false ++ [true, false, true, false])
        (initShared, pollProgram 2, pollProgram 5)).1.error = 7) ∧
    ((runSched (List.replicate 6 true ++ List.replicate 6 false)
        (initShared, pollProgram 2, pollProgram 5)).1.error = 5) ∧
    ((runSched (List.replicate 6 false ++ List.replicate 6 true)
        (initShared, pollProgram 2, pollProgram 5)).1.error = 2) := by
  refine ⟨by decide, ?_, ?_, ?_⟩ <;>
    simp [runSched, pollProgram, stepInstr, initShared, List.replicate] <;>
    norm_num

/-- Looking up a key with a unique occurrence in an association list built
by `filterMap` over keyed entries returns that key's image. -/
theorem lookup_filterMap_assoc {β : Type} (h : String × ColumnMapping → Option β) :
    ∀ (l : List (String × ColumnMapping)) (k : String) (c : ColumnMapping) (v : β),
      (l.map Prod.fst).Nodup → (k, c) ∈ l → h (k, c) = some v →
      (l.filterMap fun p => (h p).map fun x => (p.1, x)).lookup k = some v
  | [], _, _, _, _, hmem, _ => absurd hmem (List.not_mem_nil _)
  | (k2, c2) :: l, k, c, v, hnd, hmem, hv => by
    rw [List.map_cons, List.nodup_cons] at hnd
    rcases List.mem_cons.mp hmem with heq | htail
    · rw [Prod.mk.injEq] at heq
      obtain ⟨rfl, rfl⟩ := heq
      rw [List.filterMap_cons, hv]
      exact List.lookup_cons_self
    · have hne : k ≠ k2 := by
        intro he
        subst he
        exact hnd.1 (List.mem_map.mpr ⟨(k, c), htail, rfl⟩)
      have hb : (k == k2) = false := beq_eq_false_iff_ne.mpr hne
      rw [List.filterMap_cons]
      rcases h (k2, c2) with _ | x
      · exact lookup_filterMap_assoc h l k c v hnd.2 htail hv
      · simp only [Option.map, List.lookup_cons, hb]
        exact lookup_filterMap_assoc h l k c v hnd.2 htail hv

/-- The entry `convert` compiles for one non-label column: value kind from
the role, descriptor name from the prefix, namespace and exported-name
override (or the column name), carrying the label-name list of the
namespace, and multiplier 1e-6 for `GAUGE_MS` and 1 otherwise. -/
def compiledEntry (metricNamespace ns : String) (labels : List String)
    (p : String × ColumnMapping) : Option MetricMap :=
  let desc : Desc :=
    if p.2.promMetricName != "" then
      { fqName := metricNamespace ++ "_" ++ ns ++ "_" ++ p.2.promMetricName,
        help := p.2.description, variableLabels := labels }
    else
      { fqName := metricNamespace ++ "_" ++ ns ++ "_" ++ p.1,
        help := p.2.description, variableLabels := labels }
  match p.2.usage with
  | .COUNTER => some { vtype := .counterValue, desc := desc, multiplier := 1 }
  | .GAUGE => some { vtype := .gaugeValue, desc := desc, multiplier := 1 }
  | .GAUGE_MS => some { vtype := .gaugeValue, desc := desc, multiplier := 1 / 1000000 }
  | .LABEL => none

/-- The builder's per-column fold, for any fixed label list, appends the
`filterMap` of `compiledEntry`. -/
theorem convert_fold (metricNamespace ns : String) (labels : List String) :
    ∀ (mappings : List (String × ColumnMapping)) (acc : List (String × MetricMap)),
      List.foldl
        (fun (acc : List (String × MetricMap)) (p : String × ColumnMapping) =>
          let desc : Desc :=
            if p.2.promMetricName != "" then
              { fqName := metricNamespace ++ "_" ++ ns ++ "_" ++ p.2.promMetricName,
                help := p.2.description, variableLabels := labels }
            else
              { fqName := metricNamespace ++ "_" ++ ns ++ "_" ++ p.1,
                help := p.2.description, variableLabels := labels }
          match p.2.usage with
          | .COUNTER =>
              acc ++ [(p.1, { vtype := .counterValue, desc := desc, multiplier := 1 })]
          | .GAUGE => acc ++ [(p.1, { vtype := .gaugeValue, desc := desc, multiplier := 1 })]
          | .GAUGE_MS =>
              acc ++ [(p.1, { vtype := .gaugeValue, desc := desc, multiplier := 1 / 1000000 })]
          | .LABEL => acc)
        acc mappings =
      acc ++ (mappings.filterMap fun p =>
        (compiledEntry metricNamespace ns labels p).map fun x => (p.1, x))
  | [], acc => by simp
  | p :: mappings, acc => by
    rw [List.foldl_cons, convert_fold metricNamespace ns labels mappings, List.filterMap_cons]
    rcases p with ⟨name, cm⟩
    rcases cm with ⟨u, pn, ds⟩
    cases u <;> simp [compiledEntry]

/-- The compiled column map of `convert` is the `filterMap` of
`compiledEntry` over the namespace's column mappings, with the namespace's
label list. -/
theorem convert_columnMappings (metricNamespace ns : String)
    (mappings : List (String × ColumnMapping)) (conv : RowConverterKind) :
    (convert metricNamespace ns mappings conv).columnMappings =
      mappings.filterMap fun p =>
        (compiledEntry metricNamespace ns
            ((mappings.filter fun p => p.2.usage == .LABEL).map Prod.fst) p).map
          fun x => (p.1, x) := by
  show List.foldl _ [] mappings = _
  rw [convert_fold]
  rfl

/-- **C6.** For every namespace in either schema table and every non-label
column, the builder compiles an entry whose descriptor name is
`prefix_namespace_` followed by the exported-name override when present or
else the column name, carrying the namespace's label-name list; value kind
is counter for `COUNTER` and gauge for `GAUGE` and `GAUGE_MS`; the
multiplier is 1e-6 for `GAUGE_MS` and 1 otherwise, so a scaled-gauge
source value of 2500000 microseconds is emitted as 5/2 seconds. -/
theorem makeMetricMaps_spec (metricNamespace ns : String)
    (tbl : List (String × ColumnMapping))
    (hmem : (ns, tbl) ∈ metricRowMaps ∨ (ns, tbl) ∈ metricKVMaps)
    (columnName : String) (cm : ColumnMapping)
    (hc : (columnName, cm) ∈ tbl) (hlab : cm.usage ≠ .LABEL) :
    ∃ m ∈ makeMetricMaps metricNamespace,
      m.nspace = ns ∧
      m.columnMappings.lookup columnName = some
        { vtype :=
            match cm.usage with
            | .COUNTER => .counterValue
            | _ => .gaugeValue,
          desc :=
            if cm.promMetricName != "" then
              { fqName := metricNamespace ++ "_" ++ ns ++ "_" ++ cm.promMetricName,
                help := cm.description,
                variableLabels := (tbl.filter fun p => p.2.usage == .LABEL).map Prod.fst }
            else
              { fqName := metricNamespace ++ "_" ++ ns ++ "_" ++ columnName,
                help := cm.description,
                variableLabels := (tbl.filter fun p => p.2.usage == .LABEL).map Prod.fst },
          multiplier :=
            match cm.usage with
            | .GAUGE_MS => (1 : ℚ) / 1000000
            | _ => 1 } ∧
      (cm.usage = .GAUGE_MS →
        FloatVal.scale (.num 2500000)
            (match cm.usage with
            | .GAUGE_MS => (1 : ℚ) / 1000000
            | _ => 1) = .num (5 / 2)) := by
  have hnodupAll : ∀ e ∈ metricRowMaps ++ metricKVMaps, (e.2.map Prod.fst).Nodup := by decide
  have hnd : (tbl.map Prod.fst).Nodup := by
    rcases hmem with h | h
    · exact hnodupAll (ns, tbl) (List.mem_append_left _ h)
    · exact hnodupAll (ns, tbl) (List.mem_append_right _ h)
  have key : ∀ conv : RowConverterKind,
      (convert metricNamespace ns tbl conv).columnMappings.lookup columnName = some
        { vtype :=
            match cm.usage with
            | .COUNTER => .counterValue
            | _ => .gaugeValue,
          desc :=
            if cm.promMetricName != "" then
              { fqName := metricNamespace ++ "_" ++ ns ++ "_" ++ cm.promMetricName,
                help := cm.description,
                variableLabels := (tbl.filter fun p => p.2.usage == .LABEL).map Prod.fst }
            else
              { fqName := metricNamespace ++ "_" ++ ns ++ "_" ++ columnName,
                help := cm.description,
                variableLabels := (tbl.filter fun p => p.2.usage == .LABEL).map Prod.fst },
          multiplier :=
            match cm.usage with
            | .GAUGE_MS => (1 : ℚ) / 1000000
            | _ => 1 } := by
    intro conv
    rw [convert_columnMappings]
    refine lookup_filterMap_assoc _ tbl columnName cm _ hnd hc ?_
    rcases cm with ⟨u, pn, ds⟩
    cases u
    · exact absurd rfl hlab
    · rfl
    · rfl
    · rfl
  have hscale : cm.usage = .GAUGE_MS →
      FloatVal.scale (.num 2500000)
          (match cm.usage with
          | .GAUGE_MS => (1 : ℚ) / 1000000
          | _ => 1) = .num (5 / 2) := by
    intro hgm
    rw [hgm]
    exact congrArg FloatVal.num (by norm_num)
  rcases hmem with h | h
  · exact ⟨convert metricNamespace ns tbl .rowConv,
      List.mem_append_left _ (List.mem_map.mpr ⟨(ns, tbl), h, rfl⟩), rfl, key .rowConv, hscale⟩
  · exact ⟨convert metricNamespace ns tbl .kvConv,
      List.mem_append_right _ (List.mem_map.mpr ⟨(ns, tbl), h, rfl⟩), rfl, key .kvConv, hscale⟩

/-- Witness for C6 at the `stats` namespace's scaled-gauge column
`avg_query`: descriptor name uses the exported-name override, the label
list is `["database"]`, and 2500000 microseconds scale to 5/2 seconds. -/
theorem makeMetricMaps_spec_witness :
    ∃ m ∈ makeMetricMaps "pgbouncer",
      m.nspace = "stats" ∧
      m.columnMappings.lookup "avg_query" = some
        { vtype := .gaugeValue,
          desc := { fqName := "pgbouncer_stats_avg_query_duration_microseconds",
                    help := "The average query duration, shown as microsecond",
                    variableLabels := ["database"] },
          multiplier := (1 : ℚ) / 1000000 } ∧
      FloatVal.scale (.num 2500000) ((1 : ℚ) / 1000000) = .num (5 / 2) := by
  have h := makeMetricMaps_spec "pgbouncer" "stats" ((metricRowMaps.lookup "stats").getD [])
    (Or.inl (by decide)) "avg_query"
    ⟨.GAUGE_MS, "avg_query_duration_microseconds",
      "The average query duration, shown as microsecond"⟩
    (by decide) (by decide)
  obtain ⟨m, hm, hns, hlook, hscale⟩ := h
  refine ⟨m, hm, hns, ?_, hscale rfl⟩
  rw [hlook]
  rfl
